import Mathlib

/-!
Shallow embedding of the sender endpoint packet pipeline of roc-toolkit
(`src/internal_modules/roc_pipeline/sender_endpoint.h`).

The repository sources provide the class declaration of `SenderEndpoint`,
which fixes the data model: the immutable protocol tag `proto_`, the head
composer pointer `composer_` together with the optional `rtp_composer_`,
`fec_composer_` and `rtcp_composer_` sub-objects, the optional inbound
`parser_` (an `rtcp::Parser`), the optional `shipper_`, the lock-free
`inbound_queue_`, and the `valid_` flag, plus the public operations
`is_valid`, `proto`, `composer`, `outbound_writer`, `inbound_writer`,
`pull_packets` and the private `write` inherited from `packet::IWriter`.

The member function bodies live in `sender_endpoint.cpp`, which is not part
of the sources.  Every definition whose doc comment starts with
`Modelled from the spec:` is therefore translated from the natural-language
specification of the behaviour rather than from C++ code.
-/

namespace Roc

/-- Status codes of the explicit error-propagation discipline (`roc_status`):
no exceptions, every fallible operation returns a code. -/
inductive StatusCode where
  | StatusOK
  | StatusNoMem
  | StatusErrNetwork
  | StatusBadState
deriving DecidableEq, Repr

/-- Network packet: an opaque payload plus the optional destination address
stamped onto it by the shipper.  Payloads are abstracted to `Nat`; this core
never inspects them. -/
structure Packet where
  payload : Nat
  addr : Option Nat := none
deriving DecidableEq, Repr

/-- Modelled from the spec: the endpoint protocol tag (`address::Protocol`,
whose definition is not among the sources), abstracted to the categories the
spec distinguishes in its protocol decision table: a data-carrying protocol
without redundancy coding, a data-carrying protocol requesting a
forward-error-correction stage, a control/feedback protocol, and an
unrecognized (forward-compatibility) value. -/
inductive Protocol where
  | media
  | mediaFec
  | control
  | unrecognized
deriving DecidableEq, Repr

/-- Whether the protocol is a control/feedback channel. -/
def Protocol.isControl : Protocol → Bool
  | .control => true
  | _ => false

/-- Whether the protocol variant requests a redundancy (FEC) stage. -/
def Protocol.requestsFec : Protocol → Bool
  | .mediaFec => true
  | _ => false

/-- Whether the protocol value is one this core recognizes. -/
def Protocol.isRecognized : Protocol → Bool
  | .unrecognized => false
  | _ => true

/-- Whether the protocol supports inbound control traffic on the sender
(per the spec, exactly the control/feedback protocols have an inbound
channel on the sender side). -/
def Protocol.supportsInboundControl (p : Protocol) : Bool :=
  p.isControl

/-- Modelled from the spec: the allocation arena (`core::IArena`, not among
the sources), abstracted to the success or failure of each sub-object
allocation that construction may request. -/
structure Arena where
  allocMediaComposer : Bool
  allocFecComposer : Bool
  allocControlComposer : Bool
  allocControlParser : Bool
  allocShipper : Bool
deriving DecidableEq, Repr

/-- Which stage the head composer pointer `composer_` addresses: the media
(RTP) composer, the FEC composer wrapping the media composer, or the control
(RTCP) composer. -/
inductive ComposerHead where
  | rtp
  | fec
  | rtcp
deriving DecidableEq, Repr

/-- State of a `SenderEndpoint`, following the field list of the header:
`proto_` (const), the outbound sub-pipeline (`composer_` head pointer and
which optional composer sub-objects were materialized, plus `shipper_`
recorded with the destination address it is bound to), the inbound
sub-pipeline (`parser_` presence and the `inbound_queue_` contents), and
`valid_`. -/
structure SenderEndpoint where
  proto_ : Protocol
  composer_ : Option ComposerHead
  rtp_composer_ : Bool
  fec_composer_ : Bool
  rtcp_composer_ : Bool
  parser_ : Bool
  shipper_ : Option Nat
  inbound_queue_ : List Packet
  valid_ : Bool
deriving DecidableEq, Repr

/-- Modelled from the spec: `SenderEndpoint::SenderEndpoint`
(`sender_endpoint.cpp` is not among the sources).  Construction follows the
protocol decision table: for a control protocol it materializes the control
composer and the control parser; for a recognized data-carrying protocol it
materializes the media composer and, if the protocol requests redundancy
coding, a FEC composer that wraps it and becomes the head; for an
unrecognized protocol nothing is materialized.  A shipper bound to the
destination address is required in every functional configuration.
`valid_` is true exactly when every required allocation succeeded; an
unrecognized protocol leaves `valid_ = false` with no stage substituted. -/
def SenderEndpoint.construct (proto : Protocol) (outboundAddress : Nat)
    (arena : Arena) : SenderEndpoint :=
  if proto.isControl then
    let comp : Option ComposerHead :=
      if arena.allocControlComposer then some .rtcp else none
    let pars := arena.allocControlParser
    let ship : Option Nat :=
      if arena.allocShipper then some outboundAddress else none
    { proto_ := proto
      composer_ := comp
      rtp_composer_ := false
      fec_composer_ := false
      rtcp_composer_ := arena.allocControlComposer
      parser_ := pars
      shipper_ := ship
      inbound_queue_ := []
      valid_ := comp.isSome && pars && ship.isSome }
  else if proto.isRecognized then
    let media := arena.allocMediaComposer
    let fec := proto.requestsFec && media && arena.allocFecComposer
    let comp : Option ComposerHead :=
      if proto.requestsFec then
        if fec then some .fec else none
      else if media then some .rtp else none
    let ship : Option Nat :=
      if arena.allocShipper then some outboundAddress else none
    { proto_ := proto
      composer_ := comp
      rtp_composer_ := media
      fec_composer_ := fec
      rtcp_composer_ := false
      parser_ := false
      shipper_ := ship
      inbound_queue_ := []
      valid_ := comp.isSome && ship.isSome }
  else
    { proto_ := proto
      composer_ := none
      rtp_composer_ := false
      fec_composer_ := false
      rtcp_composer_ := false
      parser_ := false
      shipper_ := none
      inbound_queue_ := []
      valid_ := false }

/-- Check if the pipeline was successfully constructed (header: `is_valid`). -/
def SenderEndpoint.is_valid (ep : SenderEndpoint) : Bool :=
  ep.valid_

/-- Get the protocol (header: `proto`). -/
def SenderEndpoint.proto (ep : SenderEndpoint) : Protocol :=
  ep.proto_

/-- Get the head packet composer (header: `composer`). -/
def SenderEndpoint.composer (ep : SenderEndpoint) : Option ComposerHead :=
  ep.composer_

/-- Attaching the fixed destination address to a packet, the first half of
the shipper's job. -/
def Shipper.stamp (addr : Nat) (p : Packet) : Packet :=
  { p with addr := some addr }

/-- Modelled from the spec: `packet::Shipper::write` (`shipper.cpp` is not
among the sources).  The shipper stamps the destination address onto the
packet and forwards it to the transport writer, exactly once, returning the
transport writer's status unchanged.  The transport writer is modelled by
its per-packet status function `f` together with the trace of packets it has
observed so far. -/
def Shipper.ship (addr : Nat) (f : Packet → StatusCode) (trace : List Packet)
    (p : Packet) : StatusCode × List Packet :=
  (f (Shipper.stamp addr p), trace ++ [Shipper.stamp addr p])

/-- Modelled from the spec: the private `SenderEndpoint::write` (body not
among the sources).  It forwards the already-composed packet to the shipper
and returns the shipper's status unchanged, never retrying.  An endpoint
whose shipper was never materialized must not be used for packet flow; the
model returns `StatusBadState` there without touching the transport. -/
def SenderEndpoint.write (ep : SenderEndpoint) (f : Packet → StatusCode)
    (trace : List Packet) (p : Packet) : StatusCode × List Packet :=
  match ep.shipper_ with
  | some addr => Shipper.ship addr f trace p
  | none => (.StatusBadState, trace)

/-- Sequence of outbound writes issued serially by the pipeline thread:
returns the list of statuses and the final transport trace. -/
def SenderEndpoint.writeAll (ep : SenderEndpoint) (f : Packet → StatusCode)
    (trace : List Packet) : List Packet → List StatusCode × List Packet
  | [] => ([], trace)
  | p :: ps =>
    let r := ep.write f trace p
    let rs := ep.writeAll f r.2 ps
    (r.1 :: rs.1, rs.2)

/-- Enqueue onto the lock-free inbound queue (`inbound_queue_`): the queue
itself never drops a packet; a new packet goes to the tail. -/
def SenderEndpoint.enqueue_inbound (ep : SenderEndpoint) (p : Packet) :
    SenderEndpoint :=
  { ep with inbound_queue_ := ep.inbound_queue_ ++ [p] }

/-- Modelled from the spec: the downstream collaborators of `pull_packets` —
the control parser applied to each drained packet (success or failure) and
the session's feedback-dispatch entry point (returning a status code).  Both
receive the `current_time` argument, abstracted to `Nat`. -/
structure Session where
  parse : Packet → Nat → Bool
  dispatch : Packet → Nat → StatusCode

/-- Outcome of one `pull_packets` call: the overall status, the packets
popped from the queue (in drain order), the packets still queued afterwards,
the successfully parsed packets handed to the session's dispatch entry
point, and the count of per-packet parse failures. -/
structure PullResult where
  status : StatusCode
  drained : List Packet
  remaining : List Packet
  dispatched : List Packet
  parse_failures : Nat
deriving DecidableEq, Repr

/-- Modelled from the spec: the drain loop of `SenderEndpoint::pull_packets`
(body not among the sources).  Packets are popped one by one from the queue
snapshot; a parse failure is counted and the batch continues; a successfully
parsed packet is dispatched to the session, and a non-success dispatch
status terminates the batch at that packet and becomes the overall status,
unchanged.  When the queue is exhausted the status is success. -/
def drainLoop (sess : Session) (t : Nat) : List Packet → PullResult
  | [] =>
    { status := .StatusOK, drained := [], remaining := []
      dispatched := [], parse_failures := 0 }
  | p :: rest =>
    if sess.parse p t then
      if sess.dispatch p t = .StatusOK then
        let r := drainLoop sess t rest
        { r with drained := p :: r.drained, dispatched := p :: r.dispatched }
      else
        { status := sess.dispatch p t, drained := [p], remaining := rest
          dispatched := [p], parse_failures := 0 }
    else
      let r := drainLoop sess t rest
      { r with drained := p :: r.drained
               parse_failures := r.parse_failures + 1 }

/-- Modelled from the spec: `SenderEndpoint::pull_packets` (body not among
the sources).  Drains the inbound queue through `drainLoop` and returns the
overall status, the endpoint with the queue updated to what remains, and the
full drain outcome. -/
def SenderEndpoint.pull_packets (ep : SenderEndpoint) (sess : Session)
    (t : Nat) : StatusCode × SenderEndpoint × PullResult :=
  let r := drainLoop sess t ep.inbound_queue_
  (r.status, { ep with inbound_queue_ := r.remaining }, r)

/-- Identity of a packet writer handle as seen by callers: the null pointer,
the thread-safe inbound queue writer, or the endpoint object itself acting
as `packet::IWriter`. -/
inductive WriterHandle where
  | null
  | queueWriter
  | endpointWriter
deriving DecidableEq, Repr

/-- Modelled from the spec: `SenderEndpoint::inbound_writer` (body not among
the sources).  Returns the thread-safe queue writer when the inbound parser
was materialized, and null otherwise (not every protocol supports inbound
packets on the sender). -/
def SenderEndpoint.inbound_writer (ep : SenderEndpoint) : WriterHandle :=
  if ep.parser_ then .queueWriter else .null

/-- Modelled from the spec: `SenderEndpoint::outbound_writer` (body not
among the sources).  The header declares it returning `packet::IWriter&` —
a reference, never null — and the class privately inherits
`packet::IWriter`, so the writer is the endpoint object itself. -/
def SenderEndpoint.outbound_writer (_ep : SenderEndpoint) : WriterHandle :=
  .endpointWriter

/-- Pushing a packet through a writer handle: the null handle accepts
nothing (`none`); the queue writer enqueues onto the inbound queue; the
endpoint-as-writer handle invokes the endpoint's private `write`, which
reaches the transport. -/
def invokeWriter (w : WriterHandle) (ep : SenderEndpoint)
    (f : Packet → StatusCode) (trace : List Packet) (p : Packet) :
    Option (StatusCode × SenderEndpoint × List Packet) :=
  match w with
  | .null => none
  | .queueWriter => some (.StatusOK, ep.enqueue_inbound p, trace)
  | .endpointWriter =>
    let r := ep.write f trace p
    some (r.1, ep, r.2)

/-- Operations that can be applied to an endpoint after construction:
network threads writing to the inbound writer, the pipeline thread pulling
packets or writing an outbound packet, and the pure queries. -/
inductive Op where
  | enqueueInbound (p : Packet)
  | pullPackets (t : Nat)
  | writeOutbound (p : Packet)
  | queryIsValid
  | queryProto
  | queryInboundWriter
  | queryOutboundWriter
deriving Repr

/-- Effect of one operation on the endpoint state.  An inbound write only
lands in the queue when the inbound writer is non-null; an outbound write
mutates the transport, not the endpoint; queries mutate nothing. -/
def step (sess : Session) (ep : SenderEndpoint) : Op → SenderEndpoint
  | .enqueueInbound p =>
    if ep.parser_ then ep.enqueue_inbound p else ep
  | .pullPackets t => (ep.pull_packets sess t).2.1
  | .writeOutbound _ => ep
  | .queryIsValid => ep
  | .queryProto => ep
  | .queryInboundWriter => ep
  | .queryOutboundWriter => ep

/-- Endpoint state after an arbitrary sequence of operations. -/
def runOps (sess : Session) (ep : SenderEndpoint) (ops : List Op) :
    SenderEndpoint :=
  ops.foldl (step sess) ep

/-- Arena in which every allocation succeeds. -/
def fullArena : Arena :=
  { allocMediaComposer := true
    allocFecComposer := true
    allocControlComposer := true
    allocControlParser := true
    allocShipper := true }

/-- Session whose dispatch entry point always reports an unrecoverable
condition. -/
def fatalSession : Session :=
  { parse := fun _ _ => true
    dispatch := fun _ _ => .StatusErrNetwork }

/-- Session that parses every packet and dispatches successfully. -/
def okSession : Session :=
  { parse := fun _ _ => true
    dispatch := fun _ _ => .StatusOK }

/-- Packets drained and packets remaining together are exactly the queue
snapshot, in order: the drain loop neither loses nor duplicates a packet. -/
theorem drainLoop_partition (sess : Session) (t : Nat) (q : List Packet) :
    (drainLoop sess t q).drained ++ (drainLoop sess t q).remaining = q := by
  induction q with
  | nil => simp [drainLoop]
  | cons p rest ih =>
    by_cases hp : sess.parse p t = true
    · by_cases hd : sess.dispatch p t = StatusCode.StatusOK
      · simp [drainLoop, hp, hd, ih]
      · simp [drainLoop, hp, hd]
    · simp [drainLoop, hp, ih]

/-- When no queued packet's dispatch reports a fatal condition, the drain
loop succeeds and drains the whole queue, whatever the parse outcomes. -/
theorem drainLoop_no_fatal (sess : Session) (t : Nat) (q : List Packet)
    (h : ∀ p ∈ q, sess.parse p t = true → sess.dispatch p t = StatusCode.StatusOK) :
    (drainLoop sess t q).status = StatusCode.StatusOK ∧
    (drainLoop sess t q).remaining = [] ∧
    (drainLoop sess t q).drained = q := by
  induction q with
  | nil => simp [drainLoop]
  | cons p rest ih =>
    have hrest : ∀ x ∈ rest, sess.parse x t = true →
        sess.dispatch x t = StatusCode.StatusOK :=
      fun x hx => h x (List.mem_cons_of_mem _ hx)
    by_cases hp : sess.parse p t = true
    · have hd := h p (List.mem_cons_self _ _) hp
      simp [drainLoop, hp, hd, ih hrest]
    · simp [drainLoop, hp, ih hrest]

/-- When the drain loop returns a non-success status, the queue decomposes
as a prefix of non-fatal packets, the single packet whose dispatch reported
the fatal status (which is propagated unchanged), and the untouched rest. -/
theorem drainLoop_fatal (sess : Session) (t : Nat) (q : List Packet)
    (h : (drainLoop sess t q).status ≠ StatusCode.StatusOK) :
    ∃ pre p, q = pre ++ p :: (drainLoop sess t q).remaining ∧
      (drainLoop sess t q).drained = pre ++ [p] ∧
      sess.parse p t = true ∧
      sess.dispatch p t = (drainLoop sess t q).status ∧
      ∀ x ∈ pre, sess.parse x t = true →
        sess.dispatch x t = StatusCode.StatusOK := by
  induction q with
  | nil => simp [drainLoop] at h
  | cons p rest ih =>
    by_cases hp : sess.parse p t = true
    · by_cases hd : sess.dispatch p t = StatusCode.StatusOK
      · have hstep : drainLoop sess t (p :: rest) =
            { drainLoop sess t rest with
                drained := p :: (drainLoop sess t rest).drained
                dispatched := p :: (drainLoop sess t rest).dispatched } := by
          simp [drainLoop, hp, hd]
        rw [hstep] at h ⊢
        obtain ⟨pre, x, h1, h2, h3, h4, h5⟩ := ih h
        refine ⟨p :: pre, x, ?_, ?_, h3, h4, ?_⟩
        · simpa using congrArg (p :: ·) h1
        · simpa using congrArg (p :: ·) h2
        · intro y hy
          rcases List.mem_cons.mp hy with hy | hy
          · intro _; exact hy ▸ hd
          · exact h5 y hy
      · have hstep : drainLoop sess t (p :: rest) =
            { status := sess.dispatch p t, drained := [p], remaining := rest
              dispatched := [p], parse_failures := 0 } := by
          simp [drainLoop, hp, hd]
        rw [hstep]
        exact ⟨[], p, by simp, by simp, hp, rfl, by simp⟩
    · have hstep : drainLoop sess t (p :: rest) =
          { drainLoop sess t rest with
              drained := p :: (drainLoop sess t rest).drained
              parse_failures := (drainLoop sess t rest).parse_failures + 1 } := by
        simp [drainLoop, hp]
      rw [hstep] at h ⊢
      obtain ⟨pre, x, h1, h2, h3, h4, h5⟩ := ih h
      refine ⟨p :: pre, x, ?_, ?_, h3, h4, ?_⟩
      · simpa using congrArg (p :: ·) h1
      · simpa using congrArg (p :: ·) h2
      · intro y hy
        rcases List.mem_cons.mp hy with hy | hy
        · intro hpy; exact absurd (hy ▸ hpy) hp
        · exact h5 y hy

/-- When neither the parser nor the dispatch entry point looks at the time
argument, the drain loop's outcome does not depend on it. -/
theorem drainLoop_time_inv (sess : Session) (t1 t2 : Nat) (q : List Packet)
    (hp : ∀ p a b, sess.parse p a = sess.parse p b)
    (hd : ∀ p a b, sess.dispatch p a = sess.dispatch p b) :
    drainLoop sess t1 q = drainLoop sess t2 q := by
  induction q with
  | nil => rfl
  | cons p rest ih =>
    simp only [drainLoop, hp p t1 t2, hd p t1 t2, ih]

/-- Transport trace after a serial sequence of outbound writes: exactly the
written packets, each stamped with the shipper's destination address,
appended in write order. -/
theorem writeAll_trace (ep : SenderEndpoint) (f : Packet → StatusCode)
    (a : Nat) (h : ep.shipper_ = some a) (ps : List Packet) :
    ∀ trace : List Packet,
      (ep.writeAll f trace ps).2 = trace ++ ps.map (Shipper.stamp a) := by
  induction ps with
  | nil => intro trace; simp [SenderEndpoint.writeAll]
  | cons p rest ih =>
    intro trace
    simp [SenderEndpoint.writeAll, SenderEndpoint.write, h, Shipper.ship, ih]

/-- Construction binds the shipper to the destination address whenever the
endpoint comes out valid. -/
theorem construct_valid_shipper (proto : Protocol) (addr : Nat)
    (arena : Arena)
    (h : (SenderEndpoint.construct proto addr arena).is_valid = true) :
    (SenderEndpoint.construct proto addr arena).shipper_ = some addr := by
  obtain ⟨a, b, c, d, e⟩ := arena
  cases proto <;> cases a <;> cases b <;> cases c <;> cases d <;> cases e <;>
    simp_all [SenderEndpoint.construct, SenderEndpoint.is_valid,
      Protocol.isControl, Protocol.isRecognized, Protocol.requestsFec]

/-- On a valid endpoint the inbound parser is present exactly for a control
protocol. -/
theorem construct_valid_parser_presence (proto : Protocol) (addr : Nat)
    (arena : Arena)
    (h : (SenderEndpoint.construct proto addr arena).is_valid = true) :
    (SenderEndpoint.construct proto addr arena).parser_ = proto.isControl := by
  obtain ⟨a, b, c, d, e⟩ := arena
  cases proto <;> cases a <;> cases b <;> cases c <;> cases d <;> cases e <;>
    simp_all [SenderEndpoint.construct, SenderEndpoint.is_valid,
      Protocol.isControl, Protocol.isRecognized, Protocol.requestsFec]

/-- Construction assigns the protocol tag. -/
theorem construct_proto (proto : Protocol) (addr : Nat) (arena : Arena) :
    (SenderEndpoint.construct proto addr arena).proto_ = proto := by
  by_cases h1 : proto.isControl = true <;>
    by_cases h2 : proto.isRecognized = true <;>
      simp [SenderEndpoint.construct, h1, h2]

/-- Construction starts with an empty inbound queue. -/
theorem construct_queue_nil (proto : Protocol) (addr : Nat) (arena : Arena) :
    (SenderEndpoint.construct proto addr arena).inbound_queue_ = [] := by
  by_cases h1 : proto.isControl = true <;>
    by_cases h2 : proto.isRecognized = true <;>
      simp [SenderEndpoint.construct, h1, h2]

/-- Enqueuing a list of packets appends them, in order, to the inbound
queue: the queue itself never drops a packet. -/
theorem foldl_enqueue_queue (ep : SenderEndpoint) (ps : List Packet) :
    (ps.foldl SenderEndpoint.enqueue_inbound ep).inbound_queue_ =
      ep.inbound_queue_ ++ ps := by
  induction ps generalizing ep with
  | nil => simp
  | cons p rest ih =>
    have hfold : (p :: rest).foldl SenderEndpoint.enqueue_inbound ep =
        rest.foldl SenderEndpoint.enqueue_inbound (ep.enqueue_inbound p) := rfl
    rw [hfold, ih, SenderEndpoint.enqueue_inbound]
    simp

/-- No operation changes the protocol tag, the validity flag, the parser
presence or the shipper binding: those are written once at construction. -/
theorem step_preserves (sess : Session) (ep : SenderEndpoint) (op : Op) :
    (step sess ep op).proto_ = ep.proto_ ∧
    (step sess ep op).valid_ = ep.valid_ ∧
    (step sess ep op).parser_ = ep.parser_ ∧
    (step sess ep op).shipper_ = ep.shipper_ := by
  cases op with
  | enqueueInbound p =>
    by_cases h : ep.parser_ = true <;>
      simp [step, h, SenderEndpoint.enqueue_inbound]
  | pullPackets t => simp [step, SenderEndpoint.pull_packets]
  | writeOutbound p => simp [step]
  | queryIsValid => simp [step]
  | queryProto => simp [step]
  | queryInboundWriter => simp [step]
  | queryOutboundWriter => simp [step]

/-- Iterated form of `step_preserves` over an arbitrary operation
sequence. -/
theorem runOps_preserves (sess : Session) (ep : SenderEndpoint)
    (ops : List Op) :
    (runOps sess ep ops).proto_ = ep.proto_ ∧
    (runOps sess ep ops).valid_ = ep.valid_ ∧
    (runOps sess ep ops).parser_ = ep.parser_ ∧
    (runOps sess ep ops).shipper_ = ep.shipper_ := by
  induction ops generalizing ep with
  | nil => simp [runOps]
  | cons op rest ih =>
    have h1 := step_preserves sess ep op
    have h2 := ih (step sess ep op)
    have hfold : runOps sess ep (op :: rest) =
        runOps sess (step sess ep op) rest := rfl
    rw [hfold]
    exact ⟨h2.1.trans h1.1, h2.2.1.trans h1.2.1,
      h2.2.2.1.trans h1.2.2.1, h2.2.2.2.trans h1.2.2.2⟩

end Roc

namespace Roc

/-- C1: the `valid_` flag is true exactly when every required sub-object
allocation for the endpoint's protocol succeeded (control composer, control
parser and shipper for a control protocol; media composer and shipper, plus
the FEC composer when redundancy is requested, for a data-carrying
protocol); construction is a total function, and for an unrecognized
protocol it completes with `is_valid = false` and no stage substituted
(no composer, no parser, no shipper). -/
theorem C1_construction_validity (addr : Nat) (arena : Arena) :
    ((SenderEndpoint.construct .control addr arena).is_valid = true ↔
      (arena.allocControlComposer = true ∧ arena.allocControlParser = true ∧
        arena.allocShipper = true)) ∧
    ((SenderEndpoint.construct .media addr arena).is_valid = true ↔
      (arena.allocMediaComposer = true ∧ arena.allocShipper = true)) ∧
    ((SenderEndpoint.construct .mediaFec addr arena).is_valid = true ↔
      (arena.allocMediaComposer = true ∧ arena.allocFecComposer = true ∧
        arena.allocShipper = true)) ∧
    ((SenderEndpoint.construct .unrecognized addr arena).is_valid = false ∧
      (SenderEndpoint.construct .unrecognized addr arena).composer_ = none ∧
      (SenderEndpoint.construct .unrecognized addr arena).parser_ = false ∧
      (SenderEndpoint.construct .unrecognized addr arena).shipper_ = none) := by
  obtain ⟨a, b, c, d, e⟩ := arena
  cases a <;> cases b <;> cases c <;> cases d <;> cases e <;>
    simp [SenderEndpoint.construct, SenderEndpoint.is_valid,
      Protocol.isControl, Protocol.isRecognized, Protocol.requestsFec]

/-- C2 (counterexample): with a single queued packet whose dispatch reports
a fatal status, every packet queued at call time is drained, yet the
returned status is not success — refuting that draining every queued packet
implies a success status (and the fatal dispatch here does not terminate
the batch any earlier than a full drain). -/
theorem C2_counterexample :
    (((SenderEndpoint.construct Protocol.control 7 fullArena).enqueue_inbound
        { payload := 0 }).pull_packets fatalSession 0).2.2.remaining = [] ∧
    (((SenderEndpoint.construct Protocol.control 7 fullArena).enqueue_inbound
        { payload := 0 }).pull_packets fatalSession 0).2.2.drained =
      ((SenderEndpoint.construct Protocol.control 7 fullArena).enqueue_inbound
        { payload := 0 }).inbound_queue_ ∧
    (((SenderEndpoint.construct Protocol.control 7 fullArena).enqueue_inbound
        { payload := 0 }).pull_packets fatalSession 0).1 ≠
      StatusCode.StatusOK := by
  decide

/-- C2 (amended): `pull_packets` returns success — and fully drains the
queue snapshot — exactly as long as no dispatched packet reports a fatal
condition, regardless of per-packet parse outcomes; when a dispatch does
report a fatal status, that status is propagated unchanged as the overall
result and the batch stops at that packet, the earlier packets all having
been non-fatal and the later ones left queued (so a full drain with a fatal
status on the last packet is possible). -/
theorem C2_pull_status (ep : SenderEndpoint) (sess : Session) (t : Nat) :
    ((∀ p ∈ ep.inbound_queue_, sess.parse p t = true →
        sess.dispatch p t = StatusCode.StatusOK) →
      (ep.pull_packets sess t).1 = StatusCode.StatusOK ∧
      (ep.pull_packets sess t).2.2.remaining = [] ∧
      (ep.pull_packets sess t).2.2.drained = ep.inbound_queue_) ∧
    ((ep.pull_packets sess t).1 ≠ StatusCode.StatusOK →
      ∃ pre p, ep.inbound_queue_ =
          pre ++ p :: (ep.pull_packets sess t).2.2.remaining ∧
        (ep.pull_packets sess t).2.2.drained = pre ++ [p] ∧
        sess.parse p t = true ∧
        sess.dispatch p t = (ep.pull_packets sess t).1 ∧
        ∀ x ∈ pre, sess.parse x t = true →
          sess.dispatch x t = StatusCode.StatusOK) := by
  constructor
  · intro h
    exact drainLoop_no_fatal sess t ep.inbound_queue_ h
  · intro h
    exact drainLoop_fatal sess t ep.inbound_queue_ h

/-- C2 (witness): the amended statement applied to a concrete endpoint with
one queued packet and an always-successful session. -/
theorem C2_pull_status_witness :
    (((SenderEndpoint.construct Protocol.control 7 fullArena).enqueue_inbound
        { payload := 0 }).pull_packets okSession 0).1 =
      StatusCode.StatusOK := by
  have h := C2_pull_status
    ((SenderEndpoint.construct Protocol.control 7 fullArena).enqueue_inbound
      { payload := 0 }) okSession 0
  exact (h.1 (by intro p hp hparse; rfl)).1

/-- C3: on a validly constructed endpoint, `inbound_writer` is non-null iff
the protocol supports inbound control traffic; when it is non-null it is
the queue writer, and after any sequence of operations every later call
still returns the same handle. -/
theorem C3_inbound_writer (proto : Protocol) (addr : Nat) (arena : Arena)
    (sess : Session) (ops : List Op)
    (h : (SenderEndpoint.construct proto addr arena).is_valid = true) :
    ((SenderEndpoint.construct proto addr arena).inbound_writer ≠
        WriterHandle.null ↔ proto.supportsInboundControl = true) ∧
    (runOps sess (SenderEndpoint.construct proto addr arena) ops).inbound_writer =
      (SenderEndpoint.construct proto addr arena).inbound_writer ∧
    (proto.supportsInboundControl = true →
      (SenderEndpoint.construct proto addr arena).inbound_writer =
        WriterHandle.queueWriter) := by
  have hp := construct_valid_parser_presence proto addr arena h
  have hr := (runOps_preserves sess
    (SenderEndpoint.construct proto addr arena) ops).2.2.1
  refine ⟨?_, ?_, ?_⟩
  · rw [SenderEndpoint.inbound_writer, hp, Protocol.supportsInboundControl]
    cases proto.isControl <;> simp
  · rw [SenderEndpoint.inbound_writer, SenderEndpoint.inbound_writer, hr]
  · intro hc
    have hc' : proto.isControl = true := hc
    rw [SenderEndpoint.inbound_writer, hp, hc']
    rfl

/-- C3 (witness): a valid control endpoint exposes the queue writer; a
valid media endpoint exposes the null handle. -/
theorem C3_inbound_writer_witness :
    (SenderEndpoint.construct Protocol.control 7 fullArena).inbound_writer =
      WriterHandle.queueWriter ∧
    (SenderEndpoint.construct Protocol.media 7 fullArena).inbound_writer =
      WriterHandle.null := by
  have h1 := C3_inbound_writer Protocol.control 7 fullArena okSession []
    (by decide)
  have h2 := C3_inbound_writer Protocol.media 7 fullArena okSession []
    (by decide)
  refine ⟨h1.2.2 (by decide), ?_⟩
  have h3 := h2.1
  rw [show Protocol.media.supportsInboundControl = false from rfl] at h3
  simp at h3
  exact h3

/-- C4: the endpoint's private `write` hands exactly the given packet to
the shipper — the transport observes it once, stamped with the destination
address, appended to its trace — and returns the transport writer's status
for it unchanged, with no internal retry. -/
theorem C4_write_forwards (ep : SenderEndpoint) (f : Packet → StatusCode)
    (trace : List Packet) (p : Packet) (a : Nat) (h : ep.shipper_ = some a) :
    ep.write f trace p =
      (f (Shipper.stamp a p), trace ++ [Shipper.stamp a p]) := by
  simp [SenderEndpoint.write, h, Shipper.ship]

/-- C4 (witness): a concrete write through a failing transport returns the
transport's error unchanged and appends the stamped packet once. -/
theorem C4_write_forwards_witness :
    (SenderEndpoint.construct Protocol.media 7 fullArena).write
        (fun _ => StatusCode.StatusErrNetwork) [] { payload := 3 } =
      (StatusCode.StatusErrNetwork, [{ payload := 3, addr := some 7 }]) := by
  have h := C4_write_forwards
    (SenderEndpoint.construct Protocol.media 7 fullArena)
    (fun _ => StatusCode.StatusErrNetwork) [] { payload := 3 } 7 (by decide)
  rw [h]
  rfl

/-- C5 (counterexample): two packets enqueued before a single
`pull_packets` call are not all drained when the first packet's dispatch
reports a fatal condition: only one packet is drained and one stays
queued. -/
theorem C5_counterexample :
    ((((SenderEndpoint.construct Protocol.control 7 fullArena).enqueue_inbound
        { payload := 0 }).enqueue_inbound { payload := 1 }).pull_packets
        fatalSession 0).2.2.drained ≠
      [{ payload := 0 }, { payload := 1 }] ∧
    ((((SenderEndpoint.construct Protocol.control 7 fullArena).enqueue_inbound
        { payload := 0 }).enqueue_inbound { payload := 1 }).pull_packets
        fatalSession 0).2.2.remaining ≠ [] := by
  decide

/-- C5 (amended): after N packets are enqueued through the inbound queue
the queue holds exactly those N packets (the queue itself never drops one);
a single `pull_packets` call partitions that snapshot exactly into drained
and remaining packets, in order, with no loss and no duplication; and
whenever no dispatch reports a fatal condition the call drains exactly the
N enqueued packets, leaving the queue empty. -/
theorem C5_queue_completeness (proto : Protocol) (addr : Nat) (arena : Arena)
    (ps : List Packet) (sess : Session) (t : Nat) :
    (ps.foldl SenderEndpoint.enqueue_inbound
        (SenderEndpoint.construct proto addr arena)).inbound_queue_ = ps ∧
    ((ps.foldl SenderEndpoint.enqueue_inbound
          (SenderEndpoint.construct proto addr arena)).pull_packets
        sess t).2.2.drained ++
      ((ps.foldl SenderEndpoint.enqueue_inbound
          (SenderEndpoint.construct proto addr arena)).pull_packets
        sess t).2.2.remaining = ps ∧
    ((∀ p ∈ ps, sess.parse p t = true →
        sess.dispatch p t = StatusCode.StatusOK) →
      ((ps.foldl SenderEndpoint.enqueue_inbound
            (SenderEndpoint.construct proto addr arena)).pull_packets
          sess t).2.2.drained = ps ∧
      ((ps.foldl SenderEndpoint.enqueue_inbound
            (SenderEndpoint.construct proto addr arena)).pull_packets
          sess t).2.2.remaining = []) := by
  have hq : (ps.foldl SenderEndpoint.enqueue_inbound
      (SenderEndpoint.construct proto addr arena)).inbound_queue_ = ps := by
    rw [foldl_enqueue_queue, construct_queue_nil]
    simp
  refine ⟨hq, ?_, ?_⟩
  · exact (drainLoop_partition sess t
      (ps.foldl SenderEndpoint.enqueue_inbound
        (SenderEndpoint.construct proto addr arena)).inbound_queue_).trans hq
  · intro h
    have h2 := drainLoop_no_fatal sess t
      (ps.foldl SenderEndpoint.enqueue_inbound
        (SenderEndpoint.construct proto addr arena)).inbound_queue_
      (by rw [hq]; exact h)
    exact ⟨h2.2.2.trans hq, h2.2.1⟩

/-- C5 (witness): two concrete enqueued packets are drained exactly by one
call under an always-successful session. -/
theorem C5_queue_completeness_witness :
    ((([{ payload := 5 }, { payload := 6 }] : List Packet).foldl
          SenderEndpoint.enqueue_inbound
          (SenderEndpoint.construct Protocol.control 7 fullArena)).pull_packets
        okSession 0).2.2.drained = [{ payload := 5 }, { payload := 6 }] := by
  have h := C5_queue_completeness Protocol.control 7 fullArena
    [{ payload := 5 }, { payload := 6 }] okSession 0
  exact (h.2.2 (by intro p hp hparse; rfl)).1

/-- C6: starting from an empty transport trace, after any serial sequence
of outbound writes on a valid endpoint every packet the transport writer
observed carries the endpoint's destination address — no packet reaches the
transport without the shipper's address stamp. -/
theorem C6_outbound_address (proto : Protocol) (addr : Nat) (arena : Arena)
    (f : Packet → StatusCode) (ps : List Packet)
    (h : (SenderEndpoint.construct proto addr arena).is_valid = true) :
    ∀ q ∈ ((SenderEndpoint.construct proto addr arena).writeAll f [] ps).2,
      q.addr = some addr := by
  intro q hq
  have hs := construct_valid_shipper proto addr arena h
  rw [writeAll_trace _ f addr hs ps []] at hq
  simp at hq
  obtain ⟨x, hx, hqeq⟩ := hq
  rw [← hqeq]
  rfl

/-- C6 (witness): a concrete packet observed by the transport carries the
destination address. -/
theorem C6_outbound_address_witness :
    ({ payload := 1, addr := some 7 } : Packet).addr = some 7 :=
  C6_outbound_address Protocol.media 7 fullArena
    (fun _ => StatusCode.StatusOK) [{ payload := 1 }] (by decide)
    { payload := 1, addr := some 7 } (by decide)

/-- C7: outbound packets reach the transport writer in exactly the order of
the `write` calls: the final trace is the prior trace followed by the
written packets, stamped, in call order — in particular for the pair
`write(p1)` then `write(p2)` the transport observes `p1` before `p2`. -/
theorem C7_outbound_ordering (ep : SenderEndpoint) (f : Packet → StatusCode)
    (trace ps : List Packet) (p1 p2 : Packet) (a : Nat)
    (h : ep.shipper_ = some a) :
    (ep.writeAll f trace ps).2 = trace ++ ps.map (Shipper.stamp a) ∧
    (ep.writeAll f trace [p1, p2]).2 =
      trace ++ [Shipper.stamp a p1, Shipper.stamp a p2] := by
  refine ⟨writeAll_trace ep f a h ps trace, ?_⟩
  rw [writeAll_trace ep f a h [p1, p2] trace]
  rfl

/-- C7 (witness): two concrete writes produce a trace holding the two
stamped packets in write order. -/
theorem C7_outbound_ordering_witness :
    ((SenderEndpoint.construct Protocol.media 7 fullArena).writeAll
        (fun _ => StatusCode.StatusOK) []
        [{ payload := 1 }, { payload := 2 }]).2 =
      [{ payload := 1, addr := some 7 }, { payload := 2, addr := some 7 }] := by
  have h := C7_outbound_ordering
    (SenderEndpoint.construct Protocol.media 7 fullArena)
    (fun _ => StatusCode.StatusOK) [] [{ payload := 1 }, { payload := 2 }]
    { payload := 1 } { payload := 2 } 7 (by decide)
  rw [h.1]
  rfl

/-- C8: `is_valid` and `proto` are pure queries: after any operation
sequence they return the same values as right after construction, `proto`
returning the tag assigned at construction, and the query operations leave
the endpoint state untouched. -/
theorem C8_pure_queries (proto : Protocol) (addr : Nat) (arena : Arena)
    (sess : Session) (ops : List Op) :
    (runOps sess (SenderEndpoint.construct proto addr arena) ops).is_valid =
      (SenderEndpoint.construct proto addr arena).is_valid ∧
    (runOps sess (SenderEndpoint.construct proto addr arena) ops).proto =
      proto ∧
    step sess (runOps sess (SenderEndpoint.construct proto addr arena) ops)
        Op.queryIsValid =
      runOps sess (SenderEndpoint.construct proto addr arena) ops ∧
    step sess (runOps sess (SenderEndpoint.construct proto addr arena) ops)
        Op.queryProto =
      runOps sess (SenderEndpoint.construct proto addr arena) ops := by
  have h := runOps_preserves sess (SenderEndpoint.construct proto addr arena)
    ops
  refine ⟨h.2.1, ?_, rfl, rfl⟩
  rw [SenderEndpoint.proto, h.1, construct_proto]

/-- C9: the `current_time` argument does not influence the drain: when the
downstream parse and dispatch outcomes do not depend on time, two
`pull_packets` calls from the same state with different times return the
same status, the same resulting endpoint and the same drain outcome. -/
theorem C9_time_noninterference (ep : SenderEndpoint) (sess : Session)
    (t1 t2 : Nat)
    (hp : ∀ p a b, sess.parse p a = sess.parse p b)
    (hd : ∀ p a b, sess.dispatch p a = sess.dispatch p b) :
    ep.pull_packets sess t1 = ep.pull_packets sess t2 := by
  simp only [SenderEndpoint.pull_packets,
    drainLoop_time_inv sess t1 t2 ep.inbound_queue_ hp hd]

/-- C9 (witness): two concrete calls at different times coincide. -/
theorem C9_time_noninterference_witness :
    ((SenderEndpoint.construct Protocol.control 7 fullArena).enqueue_inbound
        { payload := 0 }).pull_packets okSession 1 =
      ((SenderEndpoint.construct Protocol.control 7 fullArena).enqueue_inbound
        { payload := 0 }).pull_packets okSession 2 :=
  C9_time_noninterference
    ((SenderEndpoint.construct Protocol.control 7 fullArena).enqueue_inbound
      { payload := 0 }) okSession 1 2 (fun _ _ _ => rfl) (fun _ _ _ => rfl)

/-- C10: `outbound_writer` returns a non-null handle — the endpoint itself
acting as a packet writer — for every endpoint, valid or not, and pushing a
packet through that handle invokes the endpoint's private `write`. -/
theorem C10_outbound_writer_self (ep : SenderEndpoint)
    (f : Packet → StatusCode) (trace : List Packet) (p : Packet) :
    ep.outbound_writer ≠ WriterHandle.null ∧
    ep.outbound_writer = WriterHandle.endpointWriter ∧
    invokeWriter ep.outbound_writer ep f trace p =
      some ((ep.write f trace p).1, ep, (ep.write f trace p).2) := by
  refine ⟨?_, rfl, rfl⟩
  intro hcontra
  exact WriterHandle.noConfusion hcontra

end Roc
